import Mathlib

/-!
Verification of the `tsi-ai` conversion service (repository `avantlehq/tsi-ai`)
against its natural-language specification.

Strings of the Python source are modelled as `List Char`; dictionaries become
structures with `Option` fields (`none` = key absent), so that `d.get(k, v)`
becomes `field.getD v`.  Python loops become structural recursion or folds,
machine-independent integers stay `Nat`/`Int`, and 32-bit arithmetic inside the
SHA-1 digest is `Nat` arithmetic reduced `% 2 ^ 32`.
-/

namespace Tsi

/-- Apostrophe character (code point 39), used inside literal message texts. -/
def apos : Char := Char.ofNat 39

/-- Decimal representation of a natural number, as produced by Python `str`
on a non-negative `int`: most-significant digit first, no leading zeros,
`"0"` for zero. -/
def natToChars (n : Nat) : List Char :=
  if n = 0 then [Char.ofNat 48] else ((Nat.digits 10 n).map Nat.digitChar).reverse

/-- Decimal representation of an integer, as produced by Python `str`. -/
def intToChars (i : Int) : List Char :=
  if i < 0 then Char.ofNat 45 :: natToChars (-i).toNat else natToChars i.toNat

/-- Read a most-significant-first digit string back as a natural number. -/
def charsToNat (ds : List Char) : Nat :=
  ds.foldl (fun a c => 10 * a + (c.toNat - 48)) 0

/-- EDIFACT separators from the UNA string
(`Sep` dataclass of `edifact_writer.py`). -/
structure Sep where
  comp : Char
  elem : Char
  dec : Char
  rel : Char
  seg : Char
deriving DecidableEq, Repr

/-- Default separators `: + . ?` and the apostrophe segment terminator. -/
def defaultSep : Sep := ⟨Char.ofNat 58, Char.ofNat 43, Char.ofNat 46, Char.ofNat 63, apos⟩

/-- Python single-character `str.replace old new`, character by character. -/
def replace1 (old : Char) (new : List Char) : List Char → List Char
  | [] => []
  | c :: rest => (if c = old then new else [c]) ++ replace1 old new rest

/-- Function `escape` of `edifact_writer.py`: the release character is doubled
first, then segment terminator, element separator and component separator are
each prefixed with the release character, in that order. -/
def escape (value : List Char) (s : Sep) : List Char :=
  replace1 s.comp [s.rel, s.comp]
    (replace1 s.elem [s.rel, s.elem]
      (replace1 s.seg [s.rel, s.seg]
        (replace1 s.rel [s.rel, s.rel] value)))

/-- Un-escaping as described by the specification: remove each
release-character prefix (which also collapses a doubled release character). -/
def unescape (rel : Char) : List Char → List Char
  | [] => []
  | c :: rest =>
    if c = rel then
      match rest with
      | [] => []
      | d :: rest2 => d :: unescape rel rest2
    else c :: unescape rel rest

/-- Per-character view of `escape`: a separator or release character becomes a
release-prefixed pair, anything else is untouched. -/
def escChar (s : Sep) (c : Char) : List Char :=
  if c = s.rel ∨ c = s.seg ∨ c = s.elem ∨ c = s.comp then [s.rel, c] else [c]

theorem replace1_append (old : Char) (new : List Char) (a b : List Char) :
    replace1 old new (a ++ b) = replace1 old new a ++ replace1 old new b := by
  induction a with
  | nil => rfl
  | cons c t ih => simp [replace1, ih]

theorem replace1_eq_self (old : Char) (new : List Char) (v : List Char)
    (h : ∀ c ∈ v, c ≠ old) : replace1 old new v = v := by
  induction v with
  | nil => rfl
  | cons c t ih =>
    have hc : c ≠ old := h c (by simp)
    simp [replace1, hc, ih (fun x hx => h x (by simp [hx]))]

theorem escape_eq_flatMap (s : Sep) (v : List Char)
    (h1 : s.rel ≠ s.seg) (h2 : s.rel ≠ s.elem) (h3 : s.rel ≠ s.comp)
    (h4 : s.seg ≠ s.elem) (h5 : s.seg ≠ s.comp) (h6 : s.elem ≠ s.comp) :
    escape v s = v.flatMap (escChar s) := by
  induction v with
  | nil => rfl
  | cons c t ih =>
    have step :
        replace1 s.rel [s.rel, s.rel] (c :: t)
          = (if c = s.rel then [s.rel, s.rel] else [c]) ++ replace1 s.rel [s.rel, s.rel] t :=
      rfl
    unfold escape
    rw [step, replace1_append, replace1_append, replace1_append]
    unfold escape at ih
    rw [ih]
    by_cases hr : c = s.rel
    · subst hr
      simp [replace1, escChar, h1, h2, h3, h1.symm, h2.symm, h3.symm]
    · by_cases hs : c = s.seg
      · subst hs
        simp [replace1, escChar, hr, h2, h3, h4, h5, h1.symm, h2.symm, h3.symm]
      · by_cases he : c = s.elem
        · subst he
          simp [replace1, escChar, hr, hs, h2, h3, h6, h2.symm, h3.symm, h4.symm]
        · by_cases hc : c = s.comp
          · subst hc
            simp [replace1, escChar, hr, hs, he, h3.symm, h5.symm, h6.symm]
          · simp [replace1, escChar, hr, hs, he, hc]

theorem unescape_cons_ne (rel c : Char) (h : c ≠ rel) (rest : List Char) :
    unescape rel (c :: rest) = c :: unescape rel rest := by
  cases rest with
  | nil => simp [unescape, h]
  | cons d r => simp [unescape, h]

theorem unescape_cons_rel (rel d : Char) (rest : List Char) :
    unescape rel (rel :: d :: rest) = d :: unescape rel rest := by
  simp [unescape]

theorem unescape_flatMap (s : Sep) (v : List Char) :
    unescape s.rel (v.flatMap (escChar s)) = v := by
  induction v with
  | nil => rfl
  | cons c t ih =>
    by_cases h : c = s.rel ∨ c = s.seg ∨ c = s.elem ∨ c = s.comp
    · simp only [List.flatMap_cons, escChar, if_pos h, List.cons_append, List.nil_append]
      rw [unescape_cons_rel, ih]
    · have hne : c ≠ s.rel := fun hc => h (Or.inl hc)
      simp only [List.flatMap_cons, escChar, if_neg h, List.cons_append, List.nil_append]
      rw [unescape_cons_ne s.rel c hne, ih]

/-- C1: Escaping then un-escaping with a separator set of five distinct
characters recovers any text (in particular any text containing the release
character, segment terminator, element separator, or component separator)
exactly. -/
theorem c1_escape_roundtrip (s : Sep) (t : List Char)
    (hdist : List.Pairwise (· ≠ ·) [s.comp, s.elem, s.dec, s.rel, s.seg])
    (_hcont : ∃ c ∈ t, c = s.rel ∨ c = s.seg ∨ c = s.elem ∨ c = s.comp) :
    unescape s.rel (escape t s) = t := by
  simp only [List.pairwise_cons, List.mem_cons, List.mem_singleton,
    List.not_mem_nil] at hdist
  obtain ⟨hcomp, helem, hdec, hrel, -⟩ := hdist
  have h1 : s.rel ≠ s.seg := hrel s.seg (Or.inl rfl)
  have h2 : s.rel ≠ s.elem := (helem s.rel (by simp)).symm
  have h3 : s.rel ≠ s.comp := (hcomp s.rel (by simp)).symm
  have h4 : s.seg ≠ s.elem := (helem s.seg (by simp)).symm
  have h5 : s.seg ≠ s.comp := (hcomp s.seg (by simp)).symm
  have h6 : s.elem ≠ s.comp := (hcomp s.elem (by simp)).symm
  rw [escape_eq_flatMap s t h1 h2 h3 h4 h5 h6]
  exact unescape_flatMap s t

/-- Witness for C1 at the concrete separator set `: + . ? ;` and the text
`a?b`, which contains the release character. -/
theorem c1_witness :
    unescape (Sep.mk (Char.ofNat 58) (Char.ofNat 43) (Char.ofNat 46) (Char.ofNat 63)
        (Char.ofNat 59)).rel
      (escape [Char.ofNat 97, Char.ofNat 63, Char.ofNat 98]
        (Sep.mk (Char.ofNat 58) (Char.ofNat 43) (Char.ofNat 46) (Char.ofNat 63)
          (Char.ofNat 59)))
      = [Char.ofNat 97, Char.ofNat 63, Char.ofNat 98] :=
  c1_escape_roundtrip _ _ (by decide) (by decide)

theorem digitChar_toNat_sub (d : Nat) (h : d < 10) :
    (Nat.digitChar d).toNat - 48 = d := by
  interval_cases d <;> decide

theorem digitChar_isDigit (d : Nat) (h : d < 10) :
    (Nat.digitChar d).isDigit = true := by
  interval_cases d <;> decide

theorem foldl_digits_reverse (L : List Nat) (acc : Nat) (h : ∀ d ∈ L, d < 10) :
    List.foldl (fun a c => 10 * a + (c.toNat - 48)) acc ((L.map Nat.digitChar).reverse)
      = acc * 10 ^ L.length + Nat.ofDigits 10 L := by
  induction L generalizing acc with
  | nil => simp
  | cons d t ih =>
    have hd : d < 10 := h d (by simp)
    have ht : ∀ x ∈ t, x < 10 := fun x hx => h x (by simp [hx])
    simp only [List.map_cons, List.reverse_cons, List.foldl_append, List.foldl_cons,
      List.foldl_nil, ih acc ht, List.length_cons, Nat.ofDigits_cons]
    rw [digitChar_toNat_sub d hd]
    ring

theorem charsToNat_natToChars (n : Nat) : charsToNat (natToChars n) = n := by
  by_cases h : n = 0
  · subst h; decide
  · unfold natToChars charsToNat
    rw [if_neg h, foldl_digits_reverse _ 0
      (fun d hd => Nat.digits_lt_base (by norm_num) hd)]
    simp [Nat.ofDigits_digits]

theorem natToChars_all_digit (n : Nat) : ∀ c ∈ natToChars n, c.isDigit = true := by
  intro c hc
  unfold natToChars at hc
  by_cases h : n = 0
  · simp [h] at hc
    subst hc; decide
  · rw [if_neg h, List.mem_reverse, List.mem_map] at hc
    obtain ⟨d, hd, rfl⟩ := hc
    exact digitChar_isDigit d (Nat.digits_lt_base (by norm_num) hd)

theorem natToChars_ne_nil (n : Nat) : natToChars n ≠ [] := by
  unfold natToChars
  by_cases h : n = 0
  · simp [h]
  · rw [if_neg h]
    simp [Nat.digits_ne_nil_iff_ne_zero.mpr h]

/-! SHA-1 over byte lists

Embedding of `hashlib.sha1(...).hexdigest()` as used by
`generate_deterministic_ref`: the FIPS 180 SHA-1 algorithm on a list of bytes
(naturals below 256), 32-bit words being naturals reduced `% 2 ^ 32`. -/

/-- UTF-8 encoding of one code point (`str.encode` in Python). -/
def utf8Char (c : Char) : List Nat :=
  let n := c.toNat
  if n < 128 then [n]
  else if n < 2048 then [192 ||| (n >>> 6), 128 ||| (n &&& 63)]
  else if n < 65536 then
    [224 ||| (n >>> 12), 128 ||| ((n >>> 6) &&& 63), 128 ||| (n &&& 63)]
  else
    [240 ||| (n >>> 18), 128 ||| ((n >>> 12) &&& 63), 128 ||| ((n >>> 6) &&& 63),
      128 ||| (n &&& 63)]

/-- UTF-8 encoding of a string. -/
def utf8 (s : List Char) : List Nat := s.flatMap utf8Char

/-- Left rotation of a 32-bit word held in a `Nat`. -/
def rotl32 (k x : Nat) : Nat := ((x <<< k) % 2 ^ 32) ||| (x >>> (32 - k))

/-- SHA-1 padding: `0x80`, zeros to 56 mod 64, then the bit length as eight
big-endian bytes. -/
def sha1Pad (msg : List Nat) : List Nat :=
  let bitLen := 8 * msg.length
  msg ++ [128] ++ List.replicate ((119 - msg.length % 64) % 64) 0 ++
    [(bitLen >>> 56) % 256, (bitLen >>> 48) % 256, (bitLen >>> 40) % 256,
      (bitLen >>> 32) % 256, (bitLen >>> 24) % 256, (bitLen >>> 16) % 256,
      (bitLen >>> 8) % 256, bitLen % 256]

/-- Split a byte list into 64-byte chunks. -/
def chunks64 (l : List Nat) : List (List Nat) :=
  if h : l = [] then [] else
    l.take 64 :: chunks64 (l.drop 64)
termination_by l.length
decreasing_by
  simp [List.length_drop]
  exact List.length_pos.mpr h

/-- Combine groups of four bytes into big-endian 32-bit words. -/
def words32 : List Nat → List Nat
  | b0 :: b1 :: b2 :: b3 :: rest =>
    ((b0 <<< 24) ||| (b1 <<< 16) ||| (b2 <<< 8) ||| b3) :: words32 rest
  | _ => []

/-- Extend sixteen schedule words to eighty. -/
def sha1Schedule (ws : List Nat) : List Nat :=
  (List.range 64).foldl
    (fun acc _ =>
      acc ++ [rotl32 1 ((acc.getD (acc.length - 3) 0) ^^^ (acc.getD (acc.length - 8) 0) ^^^
        (acc.getD (acc.length - 14) 0) ^^^ (acc.getD (acc.length - 16) 0))])
    ws

/-- Round function and constant for round `i`. -/
def sha1FK (i b c d : Nat) : Nat × Nat :=
  if i < 20 then ((b &&& c) ||| ((4294967295 ^^^ b) &&& d), 1518500249)
  else if i < 40 then (b ^^^ c ^^^ d, 1859775393)
  else if i < 60 then ((b &&& c) ||| (b &&& d) ||| (c &&& d), 2400959708)
  else (b ^^^ c ^^^ d, 3395469782)

/-- Process one 64-byte chunk, updating the five hash words. -/
def sha1Chunk (h : Nat × Nat × Nat × Nat × Nat) (chunk : List Nat) :
    Nat × Nat × Nat × Nat × Nat :=
  let ws := sha1Schedule (words32 chunk)
  let (h0, h1, h2, h3, h4) := h
  let st := (List.range 80).foldl
    (fun st i =>
      let (a, b, c, d, e) := st
      let (f, k) := sha1FK i b c d
      let temp := (rotl32 5 a + f + e + k + ws.getD i 0) % 2 ^ 32
      (temp, a, rotl32 30 b, c, d))
    (h0, h1, h2, h3, h4)
  let (a, b, c, d, e) := st
  ((h0 + a) % 2 ^ 32, (h1 + b) % 2 ^ 32, (h2 + c) % 2 ^ 32, (h3 + d) % 2 ^ 32,
    (h4 + e) % 2 ^ 32)

/-- Serialize a 32-bit word as four big-endian bytes. -/
def wordBytes (w : Nat) : List Nat :=
  [(w >>> 24) % 256, (w >>> 16) % 256, (w >>> 8) % 256, w % 256]

/-- SHA-1 digest of a byte list: twenty bytes. -/
def sha1 (msg : List Nat) : List Nat :=
  let init : Nat × Nat × Nat × Nat × Nat :=
    (1732584193, 4023233417, 2562383102, 271733878, 3285377520)
  let (h0, h1, h2, h3, h4) := (chunks64 (sha1Pad msg)).foldl sha1Chunk init
  wordBytes h0 ++ wordBytes h1 ++ wordBytes h2 ++ wordBytes h3 ++ wordBytes h4

/-- Lower-case hexadecimal digit for a nibble. -/
def hexChar (n : Nat) : Char :=
  if n < 10 then Char.ofNat (48 + n) else Char.ofNat (87 + n)

/-- Lower-case hexadecimal rendering of a byte list (`hexdigest`). -/
def bytesToHex (bs : List Nat) : List Char :=
  bs.flatMap (fun b => [hexChar ((b >>> 4) % 16), hexChar (b % 16)])

/-- Publisher dictionary of the input document (`publisher` key). -/
structure Publisher where
  name : Option (List Char)
  url : Option (List Char)
  email : Option (List Char)
  fixed_timestamp : Option (List Char)
deriving DecidableEq, Repr

/-- Function `generate_deterministic_ref` of `edifact_writer.py`: SHA-1 of
`"{name}-{url}-{version}"` in UTF-8, first twelve hex digits, upper-cased. -/
def generate_deterministic_ref (publisher : Publisher) (version : List Char) :
    List Char :=
  let name := publisher.name.getD []
  let url := publisher.url.getD []
  let hashInput := name ++ Char.ofNat 45 :: (url ++ Char.ofNat 45 :: version)
  ((bytesToHex (sha1 (utf8 hashInput))).take 12).map Char.toUpper

/-- Upper-case hexadecimal digit: `0`-`9` or `A`-`F`. -/
def isUpperHexDigit (c : Char) : Bool :=
  c.isDigit || (decide (65 ≤ c.toNat) && decide (c.toNat ≤ 70))

theorem length_bytesToHex (bs : List Nat) : (bytesToHex bs).length = 2 * bs.length := by
  induction bs with
  | nil => rfl
  | cons b t ih =>
    simp only [bytesToHex, List.flatMap_cons] at *
    simp [ih]
    ring

theorem length_sha1 (msg : List Nat) : (sha1 msg).length = 20 := by
  unfold sha1
  obtain ⟨h0, h1, h2, h3, h4⟩ := (chunks64 (sha1Pad msg)).foldl sha1Chunk
    (1732584193, 4023233417, 2562383102, 271733878, 3285377520)
  simp [wordBytes]

theorem hexChar_upper_hex (m : Nat) (h : m < 16) :
    isUpperHexDigit (hexChar m).toUpper = true := by
  interval_cases m <;> decide

theorem mem_bytesToHex_hexChar (bs : List Nat) (c : Char) (hc : c ∈ bytesToHex bs) :
    ∃ m, m < 16 ∧ c = hexChar m := by
  unfold bytesToHex at hc
  rw [List.mem_flatMap] at hc
  obtain ⟨b, -, hmem⟩ := hc
  simp only [List.mem_cons, List.mem_singleton, List.not_mem_nil, or_false] at hmem
  rcases hmem with h | h
  · exact ⟨(b >>> 4) % 16, Nat.mod_lt _ (by norm_num), h⟩
  · exact ⟨b % 16, Nat.mod_lt _ (by norm_num), h⟩

/-- C3: `generate_deterministic_ref` returns the first twelve hexadecimal
characters, upper-cased, of the SHA-1 digest of the UTF-8 bytes of
`"{name}-{url}-{version}"` (name and url defaulting to empty when absent); the
result always has twelve characters, all upper-case hexadecimal digits, and two
publishers with identical name and url give the identical reference for the
same version. -/
theorem c3_deterministic_ref (publisher : Publisher) (version : List Char) :
    generate_deterministic_ref publisher version
      = ((bytesToHex (sha1 (utf8 (publisher.name.getD [] ++
          Char.ofNat 45 :: (publisher.url.getD [] ++ Char.ofNat 45 :: version))))).take
            12).map Char.toUpper
    ∧ (generate_deterministic_ref publisher version).length = 12
    ∧ (∀ c ∈ generate_deterministic_ref publisher version, isUpperHexDigit c = true)
    ∧ (∀ p2 : Publisher, publisher.name.getD [] = p2.name.getD [] →
        publisher.url.getD [] = p2.url.getD [] →
        generate_deterministic_ref publisher version
          = generate_deterministic_ref p2 version) := by
  refine ⟨rfl, ?_, ?_, ?_⟩
  · unfold generate_deterministic_ref
    rw [List.length_map, List.length_take, length_bytesToHex, length_sha1]
    decide
  · intro c hc
    unfold generate_deterministic_ref at hc
    rw [List.mem_map] at hc
    obtain ⟨c0, hc0, rfl⟩ := hc
    have hmem : c0 ∈ bytesToHex (sha1 (utf8 (publisher.name.getD [] ++
        Char.ofNat 45 :: (publisher.url.getD [] ++ Char.ofNat 45 :: version)))) :=
      List.mem_of_mem_take hc0
    obtain ⟨m, hm, rfl⟩ := mem_bytesToHex_hexChar _ _ hmem
    exact hexChar_upper_hex m hm
  · intro p2 hname hurl
    unfold generate_deterministic_ref
    rw [hname, hurl]

/-- Witness for C3: two publisher records sharing name and url but differing in
their email field hash to the same reference. -/
theorem c3_witness :
    generate_deterministic_ref
        ⟨some ("Acme".data), some ("https://acme.example".data), none, none⟩ ("CURRENT".data)
      = generate_deterministic_ref
        ⟨some ("Acme".data), some ("https://acme.example".data), some ("a@b.c".data), none⟩
        "CURRENT".data :=
  (c3_deterministic_ref
      ⟨some ("Acme".data), some ("https://acme.example".data), none, none⟩
      "CURRENT".data).2.2.2
    ⟨some ("Acme".data), some ("https://acme.example".data), some ("a@b.c".data), none⟩ rfl rfl

/-! EDIFACT message assembly (`edifact_writer.py`) -/

/-- Calendar dictionary of a schedule variant. -/
structure Calendar where
  monday : Option Bool
  tuesday : Option Bool
  wednesday : Option Bool
  thursday : Option Bool
  friday : Option Bool
  saturday : Option Bool
  sunday : Option Bool
  start_date : Option (List Char)
  end_date : Option (List Char)
deriving DecidableEq, Repr

/-- Schedule-pattern record of a service (`variants` entries). -/
structure Variant where
  id : Option (List Char)
  service_id : Option (List Char)
  calendar : Option Calendar
deriving DecidableEq, Repr

/-- Stop-visit record of a service (`calls` entries). -/
structure Call where
  station_id : Option (List Char)
  arrival_time : Option (List Char)
  departure_time : Option (List Char)
  day_offset : Option Int
  stop_sequence : Option (List Char)
  stop_headsign : Option (List Char)
  pickup_type : Option (List Char)
  drop_off_type : Option (List Char)
  timepoint : Option (List Char)
deriving DecidableEq, Repr

/-- Agency record of the input document. -/
structure Agency where
  id : Option (List Char)
  name : Option (List Char)
  url : Option (List Char)
  timezone : Option (List Char)
  lang : Option (List Char)
  phone : Option (List Char)
  email : Option (List Char)
deriving DecidableEq, Repr

/-- Stop/station record of the input document. -/
structure Station where
  id : Option (List Char)
  code : Option (List Char)
  name : Option (List Char)
  desc : Option (List Char)
  lat : Option (List Char)
  lon : Option (List Char)
  zone_id : Option (List Char)
  url : Option (List Char)
  location_type : Option (List Char)
  parent_station : Option (List Char)
  wheelchair_boarding : Option (List Char)
deriving DecidableEq, Repr

/-- Route/service record of the input document. -/
structure Service where
  id : Option (List Char)
  agency_id : Option (List Char)
  route_short_name : Option (List Char)
  route_long_name : Option (List Char)
  route_desc : Option (List Char)
  route_type : Option (List Char)
  route_url : Option (List Char)
  route_color : Option (List Char)
  route_text_color : Option (List Char)
  train_number : Option (List Char)
  headsign : Option (List Char)
  variants : Option (List Variant)
  calls : Option (List Call)
deriving DecidableEq, Repr

/-- Transit input document (caller-supplied JSON top level). -/
structure Doc where
  publisher : Option Publisher
  agencies : Option (List Agency)
  stations : Option (List Station)
  services : Option (List Service)
deriving DecidableEq, Repr

/-- Python `a or b` on an optional string: `a` when it is present and
non-empty, otherwise `b`. -/
def pyOrStr (a b : Option (List Char)) : Option (List Char) :=
  match a with
  | some v => if v = [] then b else some v
  | none => b

/-- Segment element: a simple value (escaped) or a composite (joined by the
component separator, unescaped), as in function `seg`. -/
inductive Elem where
  | simple (v : List Char)
  | composite (vs : List (List Char))
deriving DecidableEq, Repr

/-- Python `sep.join`, by recursion on the joined pieces. -/
def joinSep (sepc : List Char) : List (List Char) → List Char
  | [] => []
  | [x] => x
  | x :: y :: rest => x ++ sepc ++ joinSep sepc (y :: rest)

/-- Function `seg` of `edifact_writer.py`: tag, element separator, elements
joined by the element separator, segment terminator. -/
def seg (tag : List Char) (elements : List Elem) (s : Sep) : List Char :=
  tag ++ s.elem :: (joinSep [s.elem] (elements.map (fun e =>
    match e with
    | .simple v => escape v s
    | .composite vs => joinSep [s.comp] vs)) ++ [s.seg])

/-- Function `make_unb`: interchange header. -/
def make_unb (sender_id receiver_id interchange_ref timestamp : List Char)
    (s : Sep) : List Char :=
  seg ("UNB".data)
    [.composite [("UNOC".data), ("3".data)], .simple sender_id, .simple receiver_id,
      .simple timestamp, .simple interchange_ref] s

/-- Function `make_unh`: message header. -/
def make_unh (message_ref message_type version : List Char) (s : Sep) : List Char :=
  seg ("UNH".data)
    [.simple message_ref,
      .composite [message_type, ("D".data), ("03B".data), ("UN".data), ("IATA".data),
        version]] s

/-- Function `make_unt`: message trailer with stringified segment count. -/
def make_unt (segment_count : Nat) (message_ref : List Char) (s : Sep) : List Char :=
  seg ("UNT".data) [.simple (natToChars segment_count), .simple message_ref] s

/-- Function `make_unz`: interchange trailer with stringified message count. -/
def make_unz (message_count : Nat) (interchange_ref : List Char) (s : Sep) : List Char :=
  seg ("UNZ".data) [.simple (natToChars message_count), .simple interchange_ref] s

/-- Loop body of `map_tsdupd_segments`: append a LOC segment for the station,
then a GIS segment when latitude and longitude are both present and
non-empty. -/
def tsdupd_station_step (s : Sep) (acc : List (List Char)) (station : Station) :
    List (List Char) :=
  let station_id := station.id.getD []
  let station_name := station.name.getD []
  let lat := station.lat.getD []
  let lon := station.lon.getD []
  let acc2 := acc ++ [seg ("LOC".data)
    [.simple ("88".data), .simple station_id, .simple [], .simple [],
      .simple station_name] s]
  if lat ≠ [] ∧ lon ≠ [] then
    acc2 ++ [seg ("GIS".data) [.simple ("1".data), .simple lat, .simple lon] s]
  else acc2

/-- Function `map_tsdupd_segments`: one LOC segment per station, followed by a
GIS segment when latitude and longitude are both present and non-empty. -/
def map_tsdupd_segments (stations : List Station) (s : Sep) : List (List Char) :=
  stations.foldl (tsdupd_station_step s) []

/-- Carrier-name lookup inside `map_skdupd_segments`: first agency whose id
equals the carrier id, empty name when absent. -/
def lookup_carrier_name (agencies : List Agency) (uic : List Char) : List Char :=
  match agencies.find? (fun a => a.id = some uic) with
  | some a => a.name.getD []
  | none => []

/-- Empty calendar dictionary (`variant.get('calendar', {})` default). -/
def emptyCalendar : Calendar := ⟨none, none, none, none, none, none, none, none, none⟩

/-- Function `_format_time_for_dtm`: strip colons, right-pad with zeros to at
least four characters. -/
def format_time_for_dtm (t : List Char) : List Char :=
  if t = [] then []
  else
    let f := t.filter (fun c => c ≠ Char.ofNat 58)
    if f.length < 4 then f ++ List.replicate (4 - f.length) (Char.ofNat 48) else f

/-- Per-variant segments of `map_skdupd_segments`: RFF, calendar DTM pair and
day-of-week FTX. -/
def skdupd_variant_segs (v : Variant) (s : Sep) : List (List Char) :=
  let service_id := v.service_id.getD (v.id.getD [])
  let cal := v.calendar.getD emptyCalendar
  let rff := if service_id ≠ [] then
      [seg ("RFF".data) [.composite [("SRV".data), service_id]] s]
    else []
  let sd := cal.start_date.getD []
  let dtm1 := if sd ≠ [] ∧ sd.length = 8 ∧ sd.all Char.isDigit = true then
      [seg ("DTM".data) [.composite [("324".data), sd, ("102".data)]] s]
    else []
  let ed := cal.end_date.getD []
  let dtm2 := if ed ≠ [] ∧ ed.length = 8 ∧ ed.all Char.isDigit = true then
      [seg ("DTM".data) [.composite [("325".data), ed, ("102".data)]] s]
    else []
  let dow := [cal.monday.getD false, cal.tuesday.getD false, cal.wednesday.getD false,
    cal.thursday.getD false, cal.friday.getD false, cal.saturday.getD false,
    cal.sunday.getD false]
  let ftx := if dow.any id = true then
      [seg ("FTX".data)
        [.simple ("CDV".data), .simple [], .simple [],
          .simple (dow.map (fun b => if b then Char.ofNat 49 else Char.ofNat 48))] s]
    else []
  rff ++ dtm1 ++ dtm2 ++ ftx

/-- Per-call segments of `map_skdupd_segments`: LOC, arrival and departure DTM,
day-offset DTM. -/
def skdupd_call_segs (c : Call) (s : Sep) : List (List Char) :=
  let station_uic := c.station_id.getD []
  let arr := c.arrival_time.getD []
  let dep := c.departure_time.getD []
  let offv := c.day_offset.getD 0
  (if station_uic ≠ [] then
      [seg ("LOC".data) [.simple ("92".data), .simple station_uic] s]
    else []) ++
  (if arr ≠ [] then
      [seg ("DTM".data)
        [.composite [("132".data), format_time_for_dtm arr, ("105".data)]] s]
    else []) ++
  (if dep ≠ [] then
      [seg ("DTM".data)
        [.composite [("133".data), format_time_for_dtm dep, ("105".data)]] s]
    else []) ++
  (if offv > 0 then
      [seg ("DTM".data) [.composite [("997".data), intToChars offv, ("900".data)]] s]
    else [])

/-- Condition under which the NAD segment is emitted for a service: non-empty
carrier id not yet seen. -/
def nad_condition (carriers : List (List Char)) (service : Service) : Prop :=
  service.agency_id.getD [] ≠ [] ∧ service.agency_id.getD [] ∉ carriers

instance (carriers : List (List Char)) (service : Service) :
    Decidable (nad_condition carriers service) := by
  unfold nad_condition
  infer_instance

/-- Optional NAD segment for a service's carrier. -/
def skdupd_nad (agencies : List Agency) (s : Sep) (carriers : List (List Char))
    (service : Service) : List (List Char) :=
  let carrier_uic := service.agency_id.getD []
  if nad_condition carriers service then
    [seg ("NAD".data)
      [.simple ("CA".data), .simple carrier_uic, .simple [],
        .simple (lookup_carrier_name agencies carrier_uic)] s]
  else []

/-- Carrier set after processing a service (`carriers_used.add`). -/
def skdupd_carriers_next (carriers : List (List Char)) (service : Service) :
    List (List Char) :=
  if nad_condition carriers service then service.agency_id.getD [] :: carriers
  else carriers

/-- TDT segment of a service: qualifier `20` and
`service.get('train_number', service.get('route_short_name',
service.get('id', '')))`. -/
def tdt_of_service (service : Service) (s : Sep) : List Char :=
  seg ("TDT".data)
    [.simple ("20".data),
      .simple (service.train_number.getD
        (service.route_short_name.getD (service.id.getD [])))] s

/-- Optional FTX segment for the headsign
(`service.get('headsign') or service.get('route_long_name')`). -/
def skdupd_ftx (service : Service) (s : Sep) : List (List Char) :=
  match pyOrStr service.headsign service.route_long_name with
  | some h =>
    if h = [] then []
    else [seg ("FTX".data)
      [.simple ("AAI".data), .simple [], .simple [], .simple h] s]
  | none => []

/-- Per-service segments of `map_skdupd_segments` given the set of already
emitted carriers: optional NAD, one TDT, optional FTX, variant and call
segments. -/
def skdupd_service_segs (agencies : List Agency) (s : Sep)
    (carriers : List (List Char)) (service : Service) : List (List Char) :=
  skdupd_nad agencies s carriers service ++
    tdt_of_service service s ::
      (skdupd_ftx service s ++
        (service.variants.getD []).flatMap (fun v => skdupd_variant_segs v s) ++
        (service.calls.getD []).flatMap (fun c => skdupd_call_segs c s))

/-- Loop of `map_skdupd_segments` over the services, threading the carrier
set. -/
def map_skdupd_go (agencies : List Agency) (s : Sep) (carriers : List (List Char)) :
    List Service → List (List Char)
  | [] => []
  | service :: rest =>
    skdupd_service_segs agencies s carriers service ++
      map_skdupd_go agencies s (skdupd_carriers_next carriers service) rest

/-- Function `map_skdupd_segments` of `edifact_writer.py`. -/
def map_skdupd_segments (agencies : List Agency) (services : List Service)
    (s : Sep) : List (List Char) :=
  map_skdupd_go agencies s [] services

/-- Error text `Invalid UNA string: {una}`. -/
def invalid_una_msg (una : List Char) : List Char :=
  ("Invalid UNA string: ".data) ++ una

/-- Error text for a missing `agencies` key. -/
def msg_missing_agencies : List Char :=
  ("Missing required ".data) ++ apos :: ("agencies".data) ++ apos :: (" data".data)

/-- Error text for a missing `services` key. -/
def msg_missing_services : List Char :=
  ("Missing required ".data) ++ apos :: ("services".data) ++ apos :: (" data".data)

/-- Error text for a missing `stations` key. -/
def msg_missing_stations : List Char :=
  ("Missing required ".data) ++ apos :: ("stations".data) ++ apos :: (" data".data)

/-- Error text for an empty agencies list. -/
def msg_agencies_empty : List Char := "Agencies list cannot be empty".data

/-- Error text for an empty services list. -/
def msg_services_empty : List Char := "Services list cannot be empty".data

/-- Error text for an empty stations list. -/
def msg_stations_empty : List Char := "Stations list cannot be empty".data

/-- Separators read from an accepted UNA string: 0-indexed positions 3, 4, 5,
6 and 8. -/
def sepOfUna (una : List Char) : Sep :=
  ⟨una.getD 3 (Char.ofNat 32), una.getD 4 (Char.ofNat 32), una.getD 5 (Char.ofNat 32),
    una.getD 6 (Char.ofNat 32), una.getD 8 (Char.ofNat 32)⟩

/-- Default timestamp `240101:0000` and the publisher `fixed_timestamp`
override (`timestamp = fixed_timestamp if fixed_timestamp else ...`). -/
def pickTimestamp (publisher : Publisher) : List Char :=
  match publisher.fixed_timestamp with
  | some t => if t = [] then ("240101:0000".data) else t
  | none => ("240101:0000".data)

/-- Publisher default `{}` when the document has no publisher key. -/
def emptyPublisher : Publisher := ⟨none, none, none, none⟩

/-- Body of `write_skdupd` after UNA parsing: data validation and assembly of
the segment list `[UNA, UNB, UNH] ++ body ++ [UNT, UNZ]` that the Python code
joins into the output string. -/
def skdupd_message (json_data : Doc) (version : List Char) (s : Sep)
    (una : List Char) : Except (List Char) (List (List Char)) :=
  match json_data.agencies with
  | none => .error msg_missing_agencies
  | some agencies =>
    match json_data.services with
    | none => .error msg_missing_services
    | some services =>
      if agencies = [] then .error msg_agencies_empty
      else if services = [] then .error msg_services_empty
      else
        let publisher := json_data.publisher.getD emptyPublisher
        let interchange_ref := generate_deterministic_ref publisher version
        let message_ref := interchange_ref ++ ("01".data)
        let timestamp := pickTimestamp publisher
        let sender_id := (publisher.name.getD ("SENDER".data)).take 35
        let body := map_skdupd_segments agencies services s
        .ok ([una,
          make_unb sender_id ("RECEIVER".data) interchange_ref timestamp s,
          make_unh message_ref ("SKDUPD".data) version s] ++ body ++
          [make_unt (body.length + 2) message_ref s,
            make_unz 1 interchange_ref s])

/-- Body of `write_tsdupd` after UNA parsing. -/
def tsdupd_message (json_data : Doc) (version : List Char) (s : Sep)
    (una : List Char) : Except (List Char) (List (List Char)) :=
  match json_data.stations with
  | none => .error msg_missing_stations
  | some stations =>
    if stations = [] then .error msg_stations_empty
    else
      let publisher := json_data.publisher.getD emptyPublisher
      let interchange_ref := generate_deterministic_ref publisher version
      let message_ref := interchange_ref ++ ("01".data)
      let timestamp := pickTimestamp publisher
      let sender_id := (publisher.name.getD ("SENDER".data)).take 35
      let body := map_tsdupd_segments stations s
      .ok ([una,
        make_unb sender_id ("RECEIVER".data) interchange_ref timestamp s,
        make_unh message_ref ("TSDUPD".data) version s] ++ body ++
        [make_unt (body.length + 2) message_ref s,
          make_unz 1 interchange_ref s])

/-- Function `write_skdupd` of `edifact_writer.py`, producing the list of
segments that the source joins into one string (defaults in the source:
`version = "CURRENT"`, `una = "UNA:+.? '"`). -/
def write_skdupd (json_data : Doc) (version una : List Char) :
    Except (List Char) (List (List Char)) :=
  if una.length = 9 ∧ una.take 3 = ("UNA".data) then
    skdupd_message json_data version (sepOfUna una) una
  else .error (invalid_una_msg una)

/-- Function `write_tsdupd` of `edifact_writer.py`, producing the list of
segments that the source joins into one string. -/
def write_tsdupd (json_data : Doc) (version una : List Char) :
    Except (List Char) (List (List Char)) :=
  if una.length = 9 ∧ una.take 3 = ("UNA".data) then
    tsdupd_message json_data version (sepOfUna una) una
  else .error (invalid_una_msg una)

/-- Joined output string of `write_skdupd` (the `''.join(segments)`). -/
def write_skdupd_text (json_data : Doc) (version una : List Char) :
    Except (List Char) (List Char) :=
  (write_skdupd json_data version una).map List.flatten

/-- Joined output string of `write_tsdupd`. -/
def write_tsdupd_text (json_data : Doc) (version una : List Char) :
    Except (List Char) (List Char) :=
  (write_tsdupd json_data version una).map List.flatten

/-! C6: UNA validation -/

theorem msgs_ne_invalid (una : List Char) :
    msg_missing_agencies ≠ invalid_una_msg una ∧
    msg_missing_services ≠ invalid_una_msg una ∧
    msg_missing_stations ≠ invalid_una_msg una ∧
    msg_agencies_empty ≠ invalid_una_msg una ∧
    msg_services_empty ≠ invalid_una_msg una ∧
    msg_stations_empty ≠ invalid_una_msg una := by
  refine ⟨?_, ?_, ?_, ?_, ?_, ?_⟩ <;> intro h
  · have h2 : some (Char.ofNat 77) = some (Char.ofNat 73) := congrArg List.head? h
    exact absurd h2 (by decide)
  · have h2 : some (Char.ofNat 77) = some (Char.ofNat 73) := congrArg List.head? h
    exact absurd h2 (by decide)
  · have h2 : some (Char.ofNat 77) = some (Char.ofNat 73) := congrArg List.head? h
    exact absurd h2 (by decide)
  · have h2 : some (Char.ofNat 65) = some (Char.ofNat 73) := congrArg List.head? h
    exact absurd h2 (by decide)
  · have h2 : some (Char.ofNat 83) = some (Char.ofNat 73) := congrArg List.head? h
    exact absurd h2 (by decide)
  · have h2 : some (Char.ofNat 83) = some (Char.ofNat 73) := congrArg List.head? h
    exact absurd h2 (by decide)

theorem skdupd_message_ne_invalid (d : Doc) (v : List Char) (s : Sep)
    (una : List Char) :
    skdupd_message d v s una ≠ Except.error (invalid_una_msg una) := by
  intro h
  cases hA : d.agencies with
  | none =>
    simp only [skdupd_message, hA] at h
    exact (msgs_ne_invalid una).1 (by injection h)
  | some agencies =>
    cases hS : d.services with
    | none =>
      simp only [skdupd_message, hA, hS] at h
      exact (msgs_ne_invalid una).2.1 (by injection h)
    | some services =>
      by_cases ha : agencies = []
      · simp only [skdupd_message, hA, hS, if_pos ha] at h
        exact (msgs_ne_invalid una).2.2.2.1 (by injection h)
      · by_cases hs2 : services = []
        · simp only [skdupd_message, hA, hS, if_neg ha, if_pos hs2] at h
          exact (msgs_ne_invalid una).2.2.2.2.1 (by injection h)
        · simp only [skdupd_message, hA, hS, if_neg ha, if_neg hs2] at h
          exact Except.noConfusion h

theorem tsdupd_message_ne_invalid (d : Doc) (v : List Char) (s : Sep)
    (una : List Char) :
    tsdupd_message d v s una ≠ Except.error (invalid_una_msg una) := by
  intro h
  cases hS : d.stations with
  | none =>
    simp only [tsdupd_message, hS] at h
    exact (msgs_ne_invalid una).2.2.1 (by injection h)
  | some stations =>
    by_cases hs2 : stations = []
    · simp only [tsdupd_message, hS, if_pos hs2] at h
      exact (msgs_ne_invalid una).2.2.2.2.2 (by injection h)
    · simp only [tsdupd_message, hS, if_neg hs2] at h
      exact Except.noConfusion h

/-- C6: both writers fail with the `Invalid UNA string` error naming the
offending string exactly when the UNA argument is not nine characters long or
does not start with `UNA`; on an accepted string they proceed with the
separator set read from 0-indexed positions 3, 4, 5, 6 and 8 (component
separator, element separator, decimal mark, release character, segment
terminator). -/
theorem c6_una_parsing (json_data : Doc) (version una : List Char) :
    (write_skdupd json_data version una = .error (invalid_una_msg una)
      ↔ ¬(una.length = 9 ∧ una.take 3 = ("UNA".data)))
    ∧ (write_tsdupd json_data version una = .error (invalid_una_msg una)
      ↔ ¬(una.length = 9 ∧ una.take 3 = ("UNA".data)))
    ∧ (una.length = 9 → una.take 3 = ("UNA".data) →
        write_skdupd json_data version una
            = skdupd_message json_data version (sepOfUna una) una
        ∧ write_tsdupd json_data version una
            = tsdupd_message json_data version (sepOfUna una) una
        ∧ (sepOfUna una).comp = una.getD 3 (Char.ofNat 32)
        ∧ (sepOfUna una).elem = una.getD 4 (Char.ofNat 32)
        ∧ (sepOfUna una).dec = una.getD 5 (Char.ofNat 32)
        ∧ (sepOfUna una).rel = una.getD 6 (Char.ofNat 32)
        ∧ (sepOfUna una).seg = una.getD 8 (Char.ofNat 32)) := by
  refine ⟨?_, ?_, ?_⟩
  · by_cases hok : una.length = 9 ∧ una.take 3 = ("UNA".data)
    · rw [write_skdupd, if_pos hok]
      exact iff_of_false
        (skdupd_message_ne_invalid json_data version (sepOfUna una) una)
        (not_not_intro hok)
    · rw [write_skdupd, if_neg hok]
      exact iff_of_true rfl hok
  · by_cases hok : una.length = 9 ∧ una.take 3 = ("UNA".data)
    · rw [write_tsdupd, if_pos hok]
      exact iff_of_false
        (tsdupd_message_ne_invalid json_data version (sepOfUna una) una)
        (not_not_intro hok)
    · rw [write_tsdupd, if_neg hok]
      exact iff_of_true rfl hok
  · intro hlen hpre
    refine ⟨?_, ?_, rfl, rfl, rfl, rfl, rfl⟩
    · rw [write_skdupd, if_pos ⟨hlen, hpre⟩]
    · rw [write_tsdupd, if_pos ⟨hlen, hpre⟩]

/-- Sample records used by the concrete witnesses. -/
def sampleAgency : Agency :=
  ⟨some ("A1".data), some ("Test Rail".data), none, none, none, none, none⟩

/-- Sample service with one carrier reference and a short name. -/
def sampleService : Service :=
  ⟨some ("S1".data), some ("A1".data), some ("101".data), none, none, none, none,
    none, none, none, none, none, none⟩

/-- Sample station carrying both coordinates. -/
def sampleStation : Station :=
  ⟨some ("ST1".data), none, some ("Main".data), none, some ("48.1".data),
    some ("17.1".data), none, none, none, none, none⟩

/-- Sample input document with publisher, one agency, one station and one
service. -/
def sampleDoc : Doc :=
  ⟨some ⟨some ("Acme".data), some ("https://acme.example".data), none, none⟩,
    some [sampleAgency], some [sampleStation], some [sampleService]⟩

/-- Default UNA advisory string `UNA:+.? '` of the source. -/
def sampleUna : List Char := ("UNA:+.? ".data) ++ [apos]

/-- Witness for C6: the default UNA advisory is accepted and yields the default
separator set, while the three-character string `bad` is rejected with the
error naming it. -/
theorem c6_witness :
    write_skdupd sampleDoc ("CURRENT".data) ("bad".data)
        = .error (invalid_una_msg ("bad".data))
      ∧ write_skdupd sampleDoc ("CURRENT".data) sampleUna
        = skdupd_message sampleDoc ("CURRENT".data) (sepOfUna sampleUna) sampleUna :=
  ⟨(c6_una_parsing sampleDoc ("CURRENT".data) ("bad".data)).1.mpr (by decide),
    ((c6_una_parsing sampleDoc ("CURRENT".data) sampleUna).2.2 (by decide) (by decide)).1⟩

/-! C2: UNT segment count -/

theorem escape_eq_self (v : List Char) (s : Sep)
    (h : ∀ c ∈ v, c ≠ s.rel ∧ c ≠ s.seg ∧ c ≠ s.elem ∧ c ≠ s.comp) :
    escape v s = v := by
  unfold escape
  rw [replace1_eq_self s.rel _ v (fun c hc => (h c hc).1),
    replace1_eq_self s.seg _ v (fun c hc => (h c hc).2.1),
    replace1_eq_self s.elem _ v (fun c hc => (h c hc).2.2.1),
    replace1_eq_self s.comp _ v (fun c hc => (h c hc).2.2.2)]

theorem takeWhile_append_stop (ds rest : List Char) (e : Char)
    (h : ∀ c ∈ ds, c ≠ e) :
    (ds ++ e :: rest).takeWhile (fun c => c ≠ e) = ds := by
  induction ds with
  | nil => simp [List.takeWhile_cons]
  | cons c t ih =>
    have hc : c ≠ e := h c (by simp)
    have ht := ih (fun x hx => h x (by simp [hx]))
    simp only [List.cons_append, List.takeWhile_cons, decide_not] at ht ⊢
    simp [hc, ht]

/-- Components of the separator set that are not decimal digits.  Under this
side condition the stringified segment count survives escaping and can be read
back from the UNT segment. -/
def sepNonDigit (s : Sep) : Prop :=
  s.rel.isDigit = false ∧ s.seg.isDigit = false ∧ s.elem.isDigit = false ∧
    s.comp.isDigit = false

instance (s : Sep) : Decidable (sepNonDigit s) := by
  unfold sepNonDigit
  infer_instance

/-- Numeric first element of a UNT segment: the digit run between the tag
`UNT` plus element separator and the next element separator. -/
def untCountOf (untSeg : List Char) (s : Sep) : Option Nat :=
  let ds := (untSeg.drop 4).takeWhile (fun c => c ≠ s.elem)
  if ds ≠ [] ∧ ds.all Char.isDigit = true then some (charsToNat ds) else none

theorem untCountOf_make_unt (n : Nat) (mref : List Char) (s : Sep)
    (h : sepNonDigit s) : untCountOf (make_unt n mref s) s = some n := by
  obtain ⟨hrel, hseg, helem, hcomp⟩ := h
  have hdig : ∀ c ∈ natToChars n, c ≠ s.rel ∧ c ≠ s.seg ∧ c ≠ s.elem ∧ c ≠ s.comp := by
    intro c hc
    have hd := natToChars_all_digit n c hc
    refine ⟨?_, ?_, ?_, ?_⟩ <;> intro he <;> subst he
    · rw [hd] at hrel; exact Bool.noConfusion hrel
    · rw [hd] at hseg; exact Bool.noConfusion hseg
    · rw [hd] at helem; exact Bool.noConfusion helem
    · rw [hd] at hcomp; exact Bool.noConfusion hcomp
  have hesc : escape (natToChars n) s = natToChars n := escape_eq_self _ _ hdig
  have hshape : make_unt n mref s
      = Char.ofNat 85 :: Char.ofNat 78 :: Char.ofNat 84 :: s.elem ::
        (natToChars n ++ s.elem :: (escape mref s ++ [s.seg])) := by
    unfold make_unt seg
    simp only [List.map_cons, List.map_nil, joinSep, hesc]
    simp [List.append_assoc]
  unfold untCountOf
  rw [hshape]
  simp only [List.drop_succ_cons, List.drop_zero]
  rw [takeWhile_append_stop _ _ _ (fun c hc => (hdig c hc).2.2.1)]
  rw [if_pos ⟨natToChars_ne_nil n,
    List.all_eq_true.mpr (fun c hc => natToChars_all_digit n c hc)⟩]
  rw [charsToNat_natToChars]

/-- C2: for every accepted input the SKDUPD and TSDUPD messages consist of the
three headers, the body segments, and a UNT and UNZ trailer; the numeric first
element of the UNT segment equals the number of body segments between UNH and
UNT plus exactly 2 (stated for separator sets free of digit characters, where
the count is unambiguous in the message). -/
theorem c2_unt_segment_count (json_data : Doc) (version una : List Char)
    (hlen : una.length = 9) (hpre : una.take 3 = ("UNA".data))
    (hnd : sepNonDigit (sepOfUna una)) :
    (∀ agencies services, json_data.agencies = some agencies →
      json_data.services = some services → agencies ≠ [] → services ≠ [] →
      ∃ unb unh mref unz,
        write_skdupd json_data version una
          = .ok ([una, unb, unh] ++
              map_skdupd_segments agencies services (sepOfUna una) ++
              [make_unt ((map_skdupd_segments agencies services (sepOfUna una)).length
                  + 2) mref (sepOfUna una), unz])
        ∧ untCountOf
            (make_unt ((map_skdupd_segments agencies services (sepOfUna una)).length
              + 2) mref (sepOfUna una)) (sepOfUna una)
          = some ((map_skdupd_segments agencies services (sepOfUna una)).length + 2))
    ∧ (∀ stations, json_data.stations = some stations → stations ≠ [] →
      ∃ unb unh mref unz,
        write_tsdupd json_data version una
          = .ok ([una, unb, unh] ++ map_tsdupd_segments stations (sepOfUna una) ++
              [make_unt ((map_tsdupd_segments stations (sepOfUna una)).length + 2)
                mref (sepOfUna una), unz])
        ∧ untCountOf
            (make_unt ((map_tsdupd_segments stations (sepOfUna una)).length + 2)
              mref (sepOfUna una)) (sepOfUna una)
          = some ((map_tsdupd_segments stations (sepOfUna una)).length + 2)) := by
  constructor
  · intro agencies services hA hS ha hs2
    have heq : write_skdupd json_data version una
        = .ok ([una,
            make_unb ((json_data.publisher.getD emptyPublisher).name.getD
                ("SENDER".data) |>.take 35) ("RECEIVER".data)
              (generate_deterministic_ref (json_data.publisher.getD emptyPublisher)
                version)
              (pickTimestamp (json_data.publisher.getD emptyPublisher)) (sepOfUna una),
            make_unh (generate_deterministic_ref (json_data.publisher.getD
                emptyPublisher) version ++ ("01".data)) ("SKDUPD".data) version
              (sepOfUna una)] ++
            map_skdupd_segments agencies services (sepOfUna una) ++
            [make_unt ((map_skdupd_segments agencies services (sepOfUna una)).length
                + 2)
              (generate_deterministic_ref (json_data.publisher.getD emptyPublisher)
                version ++ ("01".data)) (sepOfUna una),
              make_unz 1 (generate_deterministic_ref
                (json_data.publisher.getD emptyPublisher) version) (sepOfUna una)]) := by
      rw [write_skdupd, if_pos ⟨hlen, hpre⟩]
      simp only [skdupd_message, hA, hS, if_neg ha, if_neg hs2]
    exact ⟨_, _, _, _, heq, untCountOf_make_unt _ _ _ hnd⟩
  · intro stations hS hs2
    have heq : write_tsdupd json_data version una
        = .ok ([una,
            make_unb ((json_data.publisher.getD emptyPublisher).name.getD
                ("SENDER".data) |>.take 35) ("RECEIVER".data)
              (generate_deterministic_ref (json_data.publisher.getD emptyPublisher)
                version)
              (pickTimestamp (json_data.publisher.getD emptyPublisher)) (sepOfUna una),
            make_unh (generate_deterministic_ref (json_data.publisher.getD
                emptyPublisher) version ++ ("01".data)) ("TSDUPD".data) version
              (sepOfUna una)] ++
            map_tsdupd_segments stations (sepOfUna una) ++
            [make_unt ((map_tsdupd_segments stations (sepOfUna una)).length + 2)
              (generate_deterministic_ref (json_data.publisher.getD emptyPublisher)
                version ++ ("01".data)) (sepOfUna una),
              make_unz 1 (generate_deterministic_ref
                (json_data.publisher.getD emptyPublisher) version) (sepOfUna una)]) := by
      rw [write_tsdupd, if_pos ⟨hlen, hpre⟩]
      simp only [tsdupd_message, hS, if_neg hs2]
    exact ⟨_, _, _, _, heq, untCountOf_make_unt _ _ _ hnd⟩

/-- Witness for C2 at the sample document, version `CURRENT`, and the default
UNA advisory. -/
theorem c2_witness :
    ∃ unb unh mref unz,
      write_skdupd sampleDoc ("CURRENT".data) sampleUna
        = .ok ([sampleUna, unb, unh] ++
            map_skdupd_segments [sampleAgency] [sampleService] (sepOfUna sampleUna) ++
            [make_unt
              ((map_skdupd_segments [sampleAgency] [sampleService]
                (sepOfUna sampleUna)).length + 2) mref (sepOfUna sampleUna), unz])
      ∧ untCountOf
          (make_unt
            ((map_skdupd_segments [sampleAgency] [sampleService]
              (sepOfUna sampleUna)).length + 2) mref (sepOfUna sampleUna))
          (sepOfUna sampleUna)
        = some ((map_skdupd_segments [sampleAgency] [sampleService]
            (sepOfUna sampleUna)).length + 2) :=
  (c2_unt_segment_count sampleDoc ("CURRENT".data) sampleUna (by decide) (by decide)
    (by decide)).1 [sampleAgency] [sampleService] rfl rfl (by decide) (by decide)

/-! C7: one TDT segment per service -/

theorem mem_ite_singleton {α : Type} {c : Prop} [Decidable c] {x y : α}
    (h : y ∈ (if c then [x] else ([] : List α))) : y = x := by
  split at h
  · simpa using h
  · simp at h

theorem filter_flatMap_nil {α : Type} (l : List α) (f : α → List (List Char))
    (p : List Char → Bool) (h : ∀ x ∈ l, (f x).filter p = []) :
    (l.flatMap f).filter p = [] := by
  induction l with
  | nil => rfl
  | cons x t ih =>
    rw [List.flatMap_cons, List.filter_append, h x (by simp),
      ih (fun y hy => h y (by simp [hy]))]
    rfl

/-- Predicate selecting TDT segments by their three-character tag. -/
def isTdt (sg : List Char) : Bool := decide (sg.take 3 = ("TDT".data))

theorem filter_variant_segs (v : Variant) (s : Sep) :
    (skdupd_variant_segs v s).filter isTdt = [] := by
  rw [List.filter_eq_nil_iff]
  intro sg hm
  unfold skdupd_variant_segs at hm
  simp only [List.mem_append] at hm
  rcases hm with ((hm | hm) | hm) | hm <;>
    exact fun hT => Bool.noConfusion ((mem_ite_singleton hm) ▸ hT)

theorem filter_call_segs (c : Call) (s : Sep) :
    (skdupd_call_segs c s).filter isTdt = [] := by
  rw [List.filter_eq_nil_iff]
  intro sg hm
  unfold skdupd_call_segs at hm
  simp only [List.mem_append] at hm
  rcases hm with ((hm | hm) | hm) | hm <;>
    exact fun hT => Bool.noConfusion ((mem_ite_singleton hm) ▸ hT)

theorem filter_nad (agencies : List Agency) (s : Sep) (carriers : List (List Char))
    (service : Service) :
    (skdupd_nad agencies s carriers service).filter isTdt = [] := by
  rw [List.filter_eq_nil_iff]
  intro sg hm
  unfold skdupd_nad at hm
  exact fun hT => Bool.noConfusion ((mem_ite_singleton hm) ▸ hT)

theorem filter_ftx (service : Service) (s : Sep) :
    (skdupd_ftx service s).filter isTdt = [] := by
  rw [List.filter_eq_nil_iff]
  intro sg hm
  unfold skdupd_ftx at hm
  cases hp : pyOrStr service.headsign service.route_long_name with
  | none => simp [hp] at hm
  | some h =>
    simp only [hp] at hm
    by_cases hh : h = []
    · rw [if_pos hh] at hm
      simp at hm
    · rw [if_neg hh] at hm
      have hx : sg = seg ("FTX".data)
          [.simple ("AAI".data), .simple [], .simple [], .simple h] s := by
        simpa using hm
      exact fun hT => Bool.noConfusion (hx ▸ hT)

theorem filter_service_segs (agencies : List Agency) (s : Sep)
    (carriers : List (List Char)) (service : Service) :
    (skdupd_service_segs agencies s carriers service).filter isTdt
      = [tdt_of_service service s] := by
  unfold skdupd_service_segs
  rw [List.filter_append, filter_nad, List.nil_append, List.filter_cons]
  have htdt : isTdt (tdt_of_service service s) = true := rfl
  rw [htdt, if_pos rfl, List.filter_append, List.filter_append, filter_ftx,
    filter_flatMap_nil _ _ _ (fun v _ => filter_variant_segs v s),
    filter_flatMap_nil _ _ _ (fun c _ => filter_call_segs c s)]
  rfl

theorem map_skdupd_go_filter (agencies : List Agency) (s : Sep)
    (services : List Service) :
    ∀ carriers, (map_skdupd_go agencies s carriers services).filter isTdt
      = services.map (fun service => tdt_of_service service s) := by
  induction services with
  | nil => intro carriers; rfl
  | cons service rest ih =>
    intro carriers
    rw [map_skdupd_go, List.filter_append, filter_service_segs, ih, List.map_cons]
    rfl

/-- C7 (amended): for every service exactly one TDT segment is emitted, with
qualifier `20` followed by the value of `train_number` when that key is
present (even when empty), otherwise `route_short_name` when present,
otherwise `id` when present, otherwise the empty string; the TDT segments of
the body are exactly one per service, in service order. -/
theorem c7_tdt_per_service (agencies : List Agency) (services : List Service)
    (s : Sep) :
    (map_skdupd_segments agencies services s).filter isTdt
      = services.map (fun service => seg ("TDT".data)
          [.simple ("20".data),
            .simple (service.train_number.getD
              (service.route_short_name.getD (service.id.getD [])))] s)
    ∧ ((map_skdupd_segments agencies services s).filter isTdt).length
      = services.length := by
  have h := map_skdupd_go_filter agencies s services []
  rw [map_skdupd_segments]
  exact ⟨h, by rw [h, List.length_map]⟩

/-- First non-empty value among optional strings, as the original claim reads
the TDT fallback chain. -/
def firstNonEmptyStr : List (Option (List Char)) → List Char
  | [] => []
  | o :: rest =>
    match o with
    | some v => if v = [] then firstNonEmptyStr rest else v
    | none => firstNonEmptyStr rest

/-- Service whose `train_number` key is present but empty while
`route_short_name` is `101`. -/
def cxService : Service :=
  ⟨some ("S1".data), none, some ("101".data), none, none, none, none, none, none,
    some [], none, none, none⟩

/-- Counterexample to C7 as stated: with `train_number` present but empty and
`route_short_name = "101"`, the emitted TDT segment carries the empty string,
not the first non-empty value among `train_number`, `route_short_name`, `id`
(which is `101`). -/
theorem c7_counterexample :
    (map_skdupd_segments [] [cxService] defaultSep).filter isTdt
        = [seg ("TDT".data) [.simple ("20".data), .simple []] defaultSep]
      ∧ firstNonEmptyStr [cxService.train_number, cxService.route_short_name,
          cxService.id] = ("101".data)
      ∧ seg ("TDT".data) [.simple ("20".data), .simple []] defaultSep
          ≠ seg ("TDT".data)
              [.simple ("20".data),
                .simple (firstNonEmptyStr [cxService.train_number,
                  cxService.route_short_name, cxService.id])] defaultSep := by
  decide

/-! C8: LOC and GIS segments per station -/

/-- Specification-side segments for one station (§4.2 of the spec): one LOC
segment with qualifier `88`, station id, two empty related-location fields and
the station name; followed by a GIS segment with processing indicator `1` and
the two coordinates exactly when both are present (non-empty). -/
def tsdupd_station_segs_spec (station : Station) (s : Sep) : List (List Char) :=
  seg ("LOC".data)
      [.simple ("88".data), .simple (station.id.getD []), .simple [], .simple [],
        .simple (station.name.getD [])] s ::
    (if station.lat.getD [] ≠ [] ∧ station.lon.getD [] ≠ [] then
      [seg ("GIS".data)
        [.simple ("1".data), .simple (station.lat.getD []),
          .simple (station.lon.getD [])] s]
    else [])

theorem tsdupd_foldl_spec (s : Sep) (stations : List Station) :
    ∀ acc, stations.foldl (tsdupd_station_step s) acc
      = acc ++ stations.flatMap (fun st => tsdupd_station_segs_spec st s) := by
  induction stations with
  | nil => intro acc; simp
  | cons st rest ih =>
    intro acc
    rw [List.foldl_cons, ih, List.flatMap_cons]
    have hstep : tsdupd_station_step s acc st
        = acc ++ tsdupd_station_segs_spec st s := by
      unfold tsdupd_station_step tsdupd_station_segs_spec
      by_cases h : st.lat.getD [] ≠ [] ∧ st.lon.getD [] ≠ []
      · rw [if_pos h, if_pos h]
        simp [List.append_assoc]
      · rw [if_neg h, if_neg h]
    rw [hstep, List.append_assoc]

/-- C8: the TSDUPD body is, station by station, one LOC segment, followed by a
GIS segment carrying processing indicator `1` and the two coordinate strings
exactly when latitude and longitude are both present (non-empty); a station
lacking either coordinate produces the LOC segment alone. -/
theorem c8_loc_gis (stations : List Station) (s : Sep) :
    map_tsdupd_segments stations s
      = stations.flatMap (fun station => tsdupd_station_segs_spec station s)
    ∧ (∀ station : Station,
        station.lat.getD [] = [] ∨ station.lon.getD [] = [] →
        tsdupd_station_segs_spec station s
          = [seg ("LOC".data)
              [.simple ("88".data), .simple (station.id.getD []), .simple [],
                .simple [], .simple (station.name.getD [])] s])
    ∧ (∀ station : Station,
        station.lat.getD [] ≠ [] → station.lon.getD [] ≠ [] →
        tsdupd_station_segs_spec station s
          = [seg ("LOC".data)
              [.simple ("88".data), .simple (station.id.getD []), .simple [],
                .simple [], .simple (station.name.getD [])] s,
             seg ("GIS".data)
              [.simple ("1".data), .simple (station.lat.getD []),
                .simple (station.lon.getD [])] s]) := by
  refine ⟨?_, ?_, ?_⟩
  · rw [map_tsdupd_segments, tsdupd_foldl_spec s stations []]
    rfl
  · intro station hmiss
    unfold tsdupd_station_segs_spec
    rw [if_neg (by tauto)]
  · intro station hlat hlon
    unfold tsdupd_station_segs_spec
    rw [if_pos ⟨hlat, hlon⟩]

/-- Station with a latitude but no longitude key. -/
def cxStationNoLon : Station :=
  ⟨some ("ST2".data), none, some ("Two".data), none, some ("48.2".data), none,
    none, none, none, none, none⟩

/-- Witness for C8: a station lacking the longitude yields the LOC segment
alone, while the sample station with both coordinates yields LOC followed by
GIS. -/
theorem c8_witness :
    tsdupd_station_segs_spec cxStationNoLon defaultSep
        = [seg ("LOC".data)
            [.simple ("88".data), .simple (cxStationNoLon.id.getD []), .simple [],
              .simple [], .simple (cxStationNoLon.name.getD [])] defaultSep]
      ∧ tsdupd_station_segs_spec sampleStation defaultSep
        = [seg ("LOC".data)
            [.simple ("88".data), .simple (sampleStation.id.getD []), .simple [],
              .simple [], .simple (sampleStation.name.getD [])] defaultSep,
           seg ("GIS".data)
            [.simple ("1".data), .simple (sampleStation.lat.getD []),
              .simple (sampleStation.lon.getD [])] defaultSep] :=
  ⟨(c8_loc_gis [] defaultSep).2.1 cxStationNoLon (Or.inr rfl),
    (c8_loc_gis [] defaultSep).2.2 sampleStation (by decide) (by decide)⟩

/-! GTFS static writer (`gtfs_writer.py`) -/

/-- CSV field under the default Python dialect: quoted with doubled quote
characters when it contains a comma, quote, carriage return or newline. -/
def csvField (f : List Char) : List Char :=
  if f.any (fun c => c = Char.ofNat 44 ∨ c = Char.ofNat 34 ∨ c = Char.ofNat 13 ∨
      c = Char.ofNat 10) then
    Char.ofNat 34 ::
      (f.flatMap (fun c =>
        if c = Char.ofNat 34 then [Char.ofNat 34, Char.ofNat 34] else [c]) ++
        [Char.ofNat 34])
  else f

/-- CSV row: comma-joined fields terminated by CRLF (`csv.writer` default). -/
def csvRow (fields : List (List Char)) : List Char :=
  joinSep [Char.ofNat 44] (fields.map csvField) ++ [Char.ofNat 13, Char.ofNat 10]

/-- CSV text of a list of rows. -/
def csvRender (rows : List (List (List Char))) : List Char := rows.flatMap csvRow

/-- Function `_generate_agency_file`. -/
def generate_agency_file (agencies : List Agency) : List Char :=
  csvRender
    ([("agency_id".data), ("agency_name".data), ("agency_url".data),
        ("agency_timezone".data), ("agency_lang".data), ("agency_phone".data),
        ("agency_email".data)] ::
      agencies.map (fun agency =>
        [agency.id.getD [], agency.name.getD [], agency.url.getD [],
          agency.timezone.getD ("Europe/Bratislava".data), agency.lang.getD [],
          agency.phone.getD [], agency.email.getD []]))

/-- Function `_generate_stops_file`. -/
def generate_stops_file (stations : List Station) : List Char :=
  csvRender
    ([("stop_id".data), ("stop_code".data), ("stop_name".data), ("stop_desc".data),
        ("stop_lat".data), ("stop_lon".data), ("zone_id".data), ("stop_url".data),
        ("location_type".data), ("parent_station".data),
        ("wheelchair_boarding".data)] ::
      stations.map (fun station =>
        [station.id.getD [], station.code.getD [], station.name.getD [],
          station.desc.getD [], station.lat.getD [], station.lon.getD [],
          station.zone_id.getD [], station.url.getD [],
          station.location_type.getD ("0".data), station.parent_station.getD [],
          station.wheelchair_boarding.getD ("0".data)]))

/-- Function `_generate_routes_file` (its `agencies` parameter is unused in the
source as well). -/
def generate_routes_file (services : List Service) (_agencies : List Agency) :
    List Char :=
  csvRender
    ([("route_id".data), ("agency_id".data), ("route_short_name".data),
        ("route_long_name".data), ("route_desc".data), ("route_type".data),
        ("route_url".data), ("route_color".data), ("route_text_color".data)] ::
      services.map (fun service =>
        [service.id.getD [], service.agency_id.getD [],
          service.route_short_name.getD [], service.route_long_name.getD [],
          service.route_desc.getD [], service.route_type.getD ("3".data),
          service.route_url.getD [], service.route_color.getD [],
          service.route_text_color.getD []]))

/-- Calendar row for a variant: `1`/`0` weekday flags and default dates. -/
def calendar_row (variant : Variant) : List (List Char) :=
  let cal := variant.calendar.getD emptyCalendar
  [variant.id.getD [],
    if cal.monday.getD false then ("1".data) else ("0".data),
    if cal.tuesday.getD false then ("1".data) else ("0".data),
    if cal.wednesday.getD false then ("1".data) else ("0".data),
    if cal.thursday.getD false then ("1".data) else ("0".data),
    if cal.friday.getD false then ("1".data) else ("0".data),
    if cal.saturday.getD false then ("1".data) else ("0".data),
    if cal.sunday.getD false then ("1".data) else ("0".data),
    cal.start_date.getD ("20240101".data), cal.end_date.getD ("20241231".data)]

/-- Inner loop of `_generate_calendar_file`: first occurrence of each non-empty
variant id wins. -/
def calendar_variants_go (seen : List (List Char)) :
    List Variant → List (List (List Char)) × List (List Char)
  | [] => ([], seen)
  | v :: rest =>
    let sid := v.id.getD []
    if sid ≠ [] ∧ sid ∉ seen then
      let p := calendar_variants_go (sid :: seen) rest
      (calendar_row v :: p.1, p.2)
    else calendar_variants_go seen rest

/-- Outer loop of `_generate_calendar_file` over the services. -/
def calendar_services_go (seen : List (List Char)) :
    List Service → List (List (List Char))
  | [] => []
  | svc :: rest =>
    let p := calendar_variants_go seen (svc.variants.getD [])
    p.1 ++ calendar_services_go p.2 rest

/-- Function `_generate_calendar_file`. -/
def generate_calendar_file (services : List Service) : List Char :=
  csvRender
    ([("service_id".data), ("monday".data), ("tuesday".data), ("wednesday".data),
        ("thursday".data), ("friday".data), ("saturday".data), ("sunday".data),
        ("start_date".data), ("end_date".data)] ::
      calendar_services_go [] services)

/-- Row of trips.txt for one variant, with the synthesized trip id
`{route_id}_{n}`. -/
def trip_row (service : Service) (variant : Variant) (n : Nat) :
    List (List Char) :=
  let route_id := service.id.getD []
  [route_id, variant.id.getD [], route_id ++ Char.ofNat 95 :: natToChars n,
    service.route_long_name.getD [], service.route_short_name.getD [],
    ("0".data), [], ("0".data), ("0".data)]

/-- Inner loop of `_generate_trips_file`: one row per variant, incrementing the
shared counter. -/
def trips_rows_variants (service : Service) :
    Nat → List Variant → List (List (List Char)) × Nat
  | c, [] => ([], c)
  | c, v :: vs =>
    let p := trips_rows_variants service (c + 1) vs
    (trip_row service v (c + 1) :: p.1, p.2)

/-- Outer loop of `_generate_trips_file` over the services, threading the
counter. -/
def trips_rows_go : Nat → List Service → List (List (List Char))
  | _, [] => []
  | c, svc :: rest =>
    let p := trips_rows_variants svc c (svc.variants.getD [])
    p.1 ++ trips_rows_go p.2 rest

/-- Data rows of trips.txt. -/
def trips_rows (services : List Service) : List (List (List Char)) :=
  trips_rows_go 0 services

/-- Function `_generate_trips_file`. -/
def generate_trips_file (services : List Service) : List Char :=
  csvRender
    ([("route_id".data), ("service_id".data), ("trip_id".data),
        ("trip_headsign".data), ("trip_short_name".data), ("direction_id".data),
        ("block_id".data), ("wheelchair_accessible".data), ("bikes_allowed".data)] ::
      trips_rows services)

/-- Row of stop_times.txt for one call of a trip. -/
def stop_time_row (trip_id : List Char) (call : Call) : List (List Char) :=
  [trip_id, call.arrival_time.getD [], call.departure_time.getD [],
    call.station_id.getD [], call.stop_sequence.getD ("1".data),
    call.stop_headsign.getD [], call.pickup_type.getD ("0".data),
    call.drop_off_type.getD ("0".data), call.timepoint.getD ("1".data)]

/-- Inner loop of `_generate_stop_times_file`: the service's full call list is
repeated for every variant-derived trip. -/
def stop_times_variants (service : Service) :
    Nat → List Variant → List (List (List Char)) × Nat
  | c, [] => ([], c)
  | c, _v :: vs =>
    let trip_id := service.id.getD [] ++ Char.ofNat 95 :: natToChars (c + 1)
    let p := stop_times_variants service (c + 1) vs
    ((service.calls.getD []).map (stop_time_row trip_id) ++ p.1, p.2)

/-- Outer loop of `_generate_stop_times_file` over the services, threading its
own counter (identical in value to the trips.txt counter). -/
def stop_times_rows_go : Nat → List Service → List (List (List Char))
  | _, [] => []
  | c, svc :: rest =>
    let p := stop_times_variants svc c (svc.variants.getD [])
    p.1 ++ stop_times_rows_go p.2 rest

/-- Data rows of stop_times.txt. -/
def stop_times_rows (services : List Service) : List (List (List Char)) :=
  stop_times_rows_go 0 services

/-- Function `_generate_stop_times_file`. -/
def generate_stop_times_file (services : List Service) : List Char :=
  csvRender
    ([("trip_id".data), ("arrival_time".data), ("departure_time".data),
        ("stop_id".data), ("stop_sequence".data), ("stop_headsign".data),
        ("pickup_type".data), ("drop_off_type".data), ("timepoint".data)] ::
      stop_times_rows services)

/-- Python string `<`: lexicographic comparison of code points. -/
def strLt : List Char → List Char → Bool
  | [], [] => false
  | [], _ :: _ => true
  | _ :: _, [] => false
  | a :: as, b :: bs => if a = b then strLt as bs else decide (a < b)

/-- Python `min` on two strings. -/
def pyMin (a b : List Char) : List Char := if strLt b a then b else a

/-- Python `max` on two strings. -/
def pyMax (a b : List Char) : List Char := if strLt a b then b else a

/-- Feed date range of `_generate_feed_info_file`: seeded defaults, folded over
all calendars with string `min`/`max`. -/
def feed_dates (services : List Service) : List Char × List Char :=
  services.foldl (fun acc svc =>
    (svc.variants.getD []).foldl (fun acc2 v =>
      let cal := v.calendar.getD emptyCalendar
      let acc3 := match cal.start_date with
        | some sd => if sd ≠ [] then (pyMin acc2.1 sd, acc2.2) else acc2
        | none => acc2
      match cal.end_date with
      | some ed => if ed ≠ [] then (acc3.1, pyMax acc3.2 ed) else acc3
      | none => acc3) acc)
    (("20240101".data), ("20241231".data))

/-- Function `_generate_feed_info_file`; the current date
(`datetime.now().strftime` in the source) is passed in as `today`. -/
def generate_feed_info_file (today : List Char) (json_data : Doc) : List Char :=
  let publisher := json_data.publisher.getD emptyPublisher
  let dates := feed_dates (json_data.services.getD [])
  csvRender
    [[("feed_publisher_name".data), ("feed_publisher_url".data),
        ("feed_lang".data), ("feed_start_date".data), ("feed_end_date".data),
        ("feed_version".data), ("feed_contact_email".data),
        ("feed_contact_url".data)],
      [publisher.name.getD ("TSI Data Publisher".data), publisher.url.getD [],
        ("en".data), dates.1, dates.2, today, publisher.email.getD [],
        publisher.url.getD []]]

/-- Error text for the empty-list check of `write_gtfs_static`. -/
def msg_gtfs_empty : List Char :=
  "Agencies, stations, and services cannot be empty".data

/-- Function `write_gtfs_static` of `gtfs_writer.py`: validation of the three
required lists, then the filename-to-content mapping in insertion order. -/
def write_gtfs_static (today : List Char) (json_data : Doc) :
    Except (List Char) (List (List Char × List Char)) :=
  match json_data.agencies with
  | none => .error msg_missing_agencies
  | some agencies =>
    match json_data.stations with
    | none => .error msg_missing_stations
    | some stations =>
      match json_data.services with
      | none => .error msg_missing_services
      | some services =>
        if agencies = [] ∨ stations = [] ∨ services = [] then
          .error msg_gtfs_empty
        else
          .ok [(("agency.txt".data), generate_agency_file agencies),
            (("stops.txt".data), generate_stops_file stations),
            (("routes.txt".data), generate_routes_file services agencies),
            (("calendar.txt".data), generate_calendar_file services),
            (("trips.txt".data), generate_trips_file services),
            (("stop_times.txt".data), generate_stop_times_file services),
            (("feed_info.txt".data), generate_feed_info_file today json_data)]

/-! C4: trips.txt and stop_times.txt shape -/

/-- All (service, variant) pairs of the document, in document order. -/
def flat_variant_pairs (services : List Service) : List (Service × Variant) :=
  services.flatMap (fun svc => (svc.variants.getD []).map (fun v => (svc, v)))

/-- Total number of variants across all services. -/
def variant_count (services : List Service) : Nat :=
  (services.map (fun svc => (svc.variants.getD []).length)).sum

theorem length_flat_variant_pairs (services : List Service) :
    (flat_variant_pairs services).length = variant_count services := by
  induction services with
  | nil => rfl
  | cons svc rest ih =>
    rw [flat_variant_pairs, List.flatMap_cons, List.length_append, List.length_map]
    rw [flat_variant_pairs] at ih
    rw [ih]
    simp [variant_count]

theorem trips_rows_variants_spec (service : Service) (vs : List Variant) :
    ∀ c, trips_rows_variants service c vs
      = (List.zipWith (fun v n => trip_row service v n) vs
          (List.range' (c + 1) vs.length), c + vs.length) := by
  induction vs with
  | nil => intro c; simp [trips_rows_variants]
  | cons v vs ih =>
    intro c
    rw [trips_rows_variants, ih (c + 1), List.length_cons, List.range'_succ,
      List.zipWith_cons_cons]
    refine Prod.ext rfl ?_
    simp
    omega

theorem trips_rows_go_spec (services : List Service) :
    ∀ c, trips_rows_go c services
      = List.zipWith (fun (p : Service × Variant) n => trip_row p.1 p.2 n)
          (flat_variant_pairs services)
          (List.range' (c + 1) (variant_count services)) := by
  induction services with
  | nil => intro c; rfl
  | cons svc rest ih =>
    intro c
    rw [trips_rows_go, trips_rows_variants_spec svc _ c, ih (c + (svc.variants.getD []).length)]
    have hsplit : List.range' (c + 1) (variant_count (svc :: rest))
        = List.range' (c + 1) (svc.variants.getD []).length ++
          List.range' (c + 1 + (svc.variants.getD []).length) (variant_count rest) := by
      rw [show c + 1 + (svc.variants.getD []).length
          = c + 1 + 1 * (svc.variants.getD []).length by omega]
      rw [List.range'_append]
      rw [variant_count, List.map_cons, List.sum_cons]
      rw [Nat.add_comm (variant_count rest) ((svc.variants.getD []).length)]
      rfl
    rw [hsplit]
    conv_rhs => rw [flat_variant_pairs, List.flatMap_cons]
    rw [List.zipWith_append _ _ _ _ _ (by rw [List.length_map, List.length_range'])]
    rw [List.zipWith_map_left]
    rw [show c + (svc.variants.getD []).length + 1
      = c + 1 + (svc.variants.getD []).length by omega]
    rfl

theorem trips_rows_go_length (services : List Service) :
    ∀ c, (trips_rows_go c services).length = variant_count services := by
  intro c
  rw [trips_rows_go_spec services c, List.length_zipWith,
    length_flat_variant_pairs, List.length_range']
  omega

theorem stop_times_variants_spec (service : Service) (vs : List Variant) :
    ∀ c, stop_times_variants service c vs
      = ((List.zipWith (fun (_v : Variant) n => (service.calls.getD []).map
            (stop_time_row (service.id.getD [] ++ Char.ofNat 95 :: natToChars n)))
          vs (List.range' (c + 1) vs.length)).flatten, c + vs.length) := by
  induction vs with
  | nil => intro c; simp [stop_times_variants]
  | cons v vs ih =>
    intro c
    rw [stop_times_variants, ih (c + 1), List.length_cons, List.range'_succ,
      List.zipWith_cons_cons, List.flatten_cons]
    refine Prod.ext rfl ?_
    simp
    omega

theorem stop_times_rows_go_spec (services : List Service) :
    ∀ c, stop_times_rows_go c services
      = (List.zipWith (fun (p : Service × Variant) n => ((p.1).calls.getD []).map
            (stop_time_row ((p.1).id.getD [] ++ Char.ofNat 95 :: natToChars n)))
          (flat_variant_pairs services)
          (List.range' (c + 1) (variant_count services))).flatten := by
  induction services with
  | nil => intro c; rfl
  | cons svc rest ih =>
    intro c
    rw [stop_times_rows_go, stop_times_variants_spec svc _ c,
      ih (c + (svc.variants.getD []).length)]
    have hsplit : List.range' (c + 1) (variant_count (svc :: rest))
        = List.range' (c + 1) (svc.variants.getD []).length ++
          List.range' (c + 1 + (svc.variants.getD []).length) (variant_count rest) := by
      rw [show c + 1 + (svc.variants.getD []).length
          = c + 1 + 1 * (svc.variants.getD []).length by omega]
      rw [List.range'_append]
      rw [variant_count, List.map_cons, List.sum_cons]
      rw [Nat.add_comm (variant_count rest) ((svc.variants.getD []).length)]
      rfl
    rw [hsplit]
    conv_rhs => rw [flat_variant_pairs, List.flatMap_cons]
    rw [List.zipWith_append _ _ _ _ _ (by rw [List.length_map, List.length_range'])]
    rw [List.zipWith_map_left, List.flatten_append]
    rw [show c + (svc.variants.getD []).length + 1
      = c + 1 + (svc.variants.getD []).length by omega]
    rfl

theorem stop_times_variants_length (service : Service) (vs : List Variant) :
    ∀ c, (stop_times_variants service c vs).1.length
      = vs.length * (service.calls.getD []).length := by
  induction vs with
  | nil => intro c; simp [stop_times_variants]
  | cons v vs ih =>
    intro c
    rw [stop_times_variants]
    simp only [List.length_append, List.length_map, ih (c + 1), List.length_cons]
    ring

theorem stop_times_rows_go_length (services : List Service) :
    ∀ c, (stop_times_rows_go c services).length
      = (services.map (fun svc => (svc.variants.getD []).length *
          (svc.calls.getD []).length)).sum := by
  induction services with
  | nil => intro c; rfl
  | cons svc rest ih =>
    intro c
    rw [stop_times_rows_go, List.length_append, stop_times_variants_length,
      ih _, List.map_cons, List.sum_cons]

/-- C4: trips.txt carries exactly one data row per variant (N rows in total),
with trip id `{route_id}_{n}` drawn from one counter running 1, 2, ... over all
services and variants in document order; and for every variant-derived trip,
stop_times.txt carries one block consisting of the service's entire call list
(K rows for a service with K calls), every row of the block bearing that
trip's synthesized id. -/
theorem c4_trips_and_stop_times (services : List Service) :
    (trips_rows services).length = variant_count services
    ∧ trips_rows services
        = List.zipWith (fun (p : Service × Variant) n => trip_row p.1 p.2 n)
            (flat_variant_pairs services) (List.range' 1 (variant_count services))
    ∧ stop_times_rows services
        = (List.zipWith (fun (p : Service × Variant) n => ((p.1).calls.getD []).map
              (stop_time_row ((p.1).id.getD [] ++ Char.ofNat 95 :: natToChars n)))
            (flat_variant_pairs services)
            (List.range' 1 (variant_count services))).flatten
    ∧ (stop_times_rows services).length
        = (services.map (fun svc => (svc.variants.getD []).length *
            (svc.calls.getD []).length)).sum := by
  refine ⟨trips_rows_go_length services 0, trips_rows_go_spec services 0, ?_, ?_⟩
  · exact stop_times_rows_go_spec services 0
  · exact stop_times_rows_go_length services 0

/-! C5: GTFS required-field gate -/

theorem write_gtfs_ok_then (today : List Char) (d : Doc)
    (files : List (List Char × List Char))
    (h : write_gtfs_static today d = .ok files) :
    ∃ ags sts svcs, d.agencies = some ags ∧ d.stations = some sts ∧
      d.services = some svcs ∧ ags ≠ [] ∧ sts ≠ [] ∧ svcs ≠ [] := by
  rcases hA : d.agencies with _ | ags
  · simp only [write_gtfs_static, hA] at h
    exact Except.noConfusion h
  · rcases hS : d.stations with _ | sts
    · simp only [write_gtfs_static, hA, hS] at h
      exact Except.noConfusion h
    · rcases hV : d.services with _ | svcs
      · simp only [write_gtfs_static, hA, hS, hV] at h
        exact Except.noConfusion h
      · by_cases he : ags = [] ∨ sts = [] ∨ svcs = []
        · simp only [write_gtfs_static, hA, hS, hV, if_pos he] at h
          exact Except.noConfusion h
        · push_neg at he
          exact ⟨ags, sts, svcs, rfl, rfl, rfl, he.1, he.2.1, he.2.2⟩

/-- C5: the GTFS static writer fails with an Invalid-Input error (and so
produces no file mapping) exactly when one of `agencies`, `stations`,
`services` is missing or bound to an empty list; when all three are present
and non-empty it returns the file mapping. -/
theorem c5_gtfs_required_fields (today : List Char) (json_data : Doc) :
    ((∃ e, write_gtfs_static today json_data = .error e)
      ↔ (json_data.agencies = none ∨ json_data.stations = none ∨
          json_data.services = none ∨ json_data.agencies = some [] ∨
          json_data.stations = some [] ∨ json_data.services = some []))
    ∧ (∀ ags sts svcs, json_data.agencies = some ags →
        json_data.stations = some sts → json_data.services = some svcs →
        ags ≠ [] → sts ≠ [] → svcs ≠ [] →
        ∃ files, write_gtfs_static today json_data = .ok files) := by
  constructor
  · constructor
    · rintro ⟨e, he⟩
      by_contra hno
      push_neg at hno
      obtain ⟨n1, n2, n3, n4, n5, n6⟩ := hno
      rcases hA : json_data.agencies with _ | ags
      · exact n1 hA
      · rcases hS : json_data.stations with _ | sts
        · exact n2 hS
        · rcases hV : json_data.services with _ | svcs
          · exact n3 hV
          · have hne : ¬(ags = [] ∨ sts = [] ∨ svcs = []) := by
              rintro (h | h | h)
              · exact n4 (h ▸ hA)
              · exact n5 (h ▸ hS)
              · exact n6 (h ▸ hV)
            simp only [write_gtfs_static, hA, hS, hV, if_neg hne] at he
            exact Except.noConfusion he
    · intro hdisj
      cases hx : write_gtfs_static today json_data with
      | error e => exact ⟨e, rfl⟩
      | ok v =>
        obtain ⟨ags, sts, svcs, hA, hS, hV, h1, h2, h3⟩ :=
          write_gtfs_ok_then today json_data v hx
        rcases hdisj with h | h | h | h | h | h
        · rw [h] at hA; exact Option.noConfusion hA
        · rw [h] at hS; exact Option.noConfusion hS
        · rw [h] at hV; exact Option.noConfusion hV
        · rw [h] at hA; exact absurd (Option.some.inj hA).symm h1
        · rw [h] at hS; exact absurd (Option.some.inj hS).symm h2
        · rw [h] at hV; exact absurd (Option.some.inj hV).symm h3
  · intro ags sts svcs hA hS hV h1 h2 h3
    cases hx : write_gtfs_static today json_data with
    | ok v => exact ⟨v, rfl⟩
    | error e =>
      exfalso
      simp only [write_gtfs_static, hA, hS, hV,
        if_neg (by tauto : ¬(ags = [] ∨ sts = [] ∨ svcs = []))] at hx
      exact Except.noConfusion hx

/-- Witness for C5: a document lacking the `services` key is rejected, and the
sample document with all three non-empty lists is accepted. -/
theorem c5_witness :
    (∃ e, write_gtfs_static ("20260101".data)
      (Doc.mk none (some [sampleAgency]) (some [sampleStation]) none) = .error e)
    ∧ (∃ files,
        write_gtfs_static ("20260101".data) sampleDoc = .ok files) :=
  ⟨(c5_gtfs_required_fields ("20260101".data)
      (Doc.mk none (some [sampleAgency]) (some [sampleStation]) none)).1.mpr
      (Or.inr (Or.inr (Or.inl rfl))),
    (c5_gtfs_required_fields ("20260101".data) sampleDoc).2 [sampleAgency]
      [sampleStation] [sampleService] rfl rfl rfl (by decide) (by decide) (by decide)⟩

/-! C9: filename sanitization (`file_handler.py`) -/

/-- Characters matched by the regex class `[\w\-_\.]` of `_sanitize_filename`
(`\w` modelled in its ASCII range: letters, digits, underscore). -/
def sanitizeAllowed (c : Char) : Bool :=
  c.isAlphanum || c = Char.ofNat 95 || c = Char.ofNat 45 || c = Char.ofNat 46

/-- The `re.sub` step: every character outside the class becomes an
underscore. -/
def re_sub_word (filename : List Char) : List Char :=
  filename.map (fun c => if sanitizeAllowed c then c else Char.ofNat 95)

/-- Python `str.rfind` for the dot character: index of the last dot. -/
def rfind_dot : List Char → Option Nat
  | [] => none
  | c :: rest =>
    match rfind_dot rest with
    | some i => some (i + 1)
    | none => if c = Char.ofNat 46 then some 0 else none

/-- Python `os.path.splitext` on a name without path separators: split at the
last dot, except when every character before it is itself a dot. -/
def splitext (p : List Char) : List Char × List Char :=
  match rfind_dot p with
  | none => (p, [])
  | some i =>
    if (p.take i).all (fun c => c = Char.ofNat 46) then (p, [])
    else (p.take i, p.drop i)

/-- Function `_sanitize_filename` of `file_handler.py`: replace disallowed
characters, cut the stem to 95 characters when longer than 100 (extension
preserved), and append `.txt` when no dot remains. -/
def sanitize_filename (filename : List Char) : List Char :=
  let safe := re_sub_word filename
  let safe2 :=
    if safe.length > 100 then (splitext safe).1.take 95 ++ (splitext safe).2
    else safe
  if Char.ofNat 46 ∈ safe2 then safe2 else safe2 ++ (".txt".data)

theorem re_sub_word_allowed (filename : List Char) :
    ∀ c ∈ re_sub_word filename, sanitizeAllowed c = true := by
  intro c hc
  rw [re_sub_word, List.mem_map] at hc
  obtain ⟨x, -, rfl⟩ := hc
  by_cases hx : sanitizeAllowed x = true
  · simp [hx]
  · rw [if_neg (by simpa using hx)]
    decide

theorem splitext_fst_subset (p : List Char) : ∀ c ∈ (splitext p).1, c ∈ p := by
  intro c hc
  rw [splitext] at hc
  split at hc
  · exact hc
  · split at hc
    · exact hc
    · exact List.take_subset _ _ hc

theorem splitext_snd_subset (p : List Char) : ∀ c ∈ (splitext p).2, c ∈ p := by
  intro c hc
  rw [splitext] at hc
  split at hc
  · simp at hc
  · split at hc
    · simp at hc
    · exact List.drop_subset _ _ hc

/-- C9 (amended): the sanitized filename consists only of letters, digits,
underscore, hyphen and dot, and always contains a dot; a sanitized name of at
most 100 characters is kept verbatim, with `.txt` appended when it has no dot
(so up to 104 characters); a longer name is cut to the first 95 characters of
its stem with the extension preserved in full (so at most 99 characters plus
the extension length, which can exceed 100).  The original bound of 100
characters does not hold in general. -/
theorem c9_sanitize_filename (filename : List Char) :
    (∀ c ∈ sanitize_filename filename, sanitizeAllowed c = true)
    ∧ Char.ofNat 46 ∈ sanitize_filename filename
    ∧ ((re_sub_word filename).length ≤ 100 →
        sanitize_filename filename
          = (if Char.ofNat 46 ∈ re_sub_word filename then re_sub_word filename
             else re_sub_word filename ++ (".txt".data))
        ∧ (sanitize_filename filename).length ≤ (re_sub_word filename).length + 4)
    ∧ ((re_sub_word filename).length > 100 →
        sanitize_filename filename
          = (if Char.ofNat 46 ∈ ((splitext (re_sub_word filename)).1.take 95 ++
                (splitext (re_sub_word filename)).2)
             then (splitext (re_sub_word filename)).1.take 95 ++
                (splitext (re_sub_word filename)).2
             else (splitext (re_sub_word filename)).1.take 95 ++
                (splitext (re_sub_word filename)).2 ++ (".txt".data))
        ∧ (sanitize_filename filename).length
            ≤ 99 + (splitext (re_sub_word filename)).2.length) := by
  have htxt : ∀ c ∈ (".txt".data : List Char), sanitizeAllowed c = true := by decide
  have hdot_txt : Char.ofNat 46 ∈ (".txt".data : List Char) := by decide
  by_cases hlen : (re_sub_word filename).length > 100
  · have heq : sanitize_filename filename
        = (if Char.ofNat 46 ∈ ((splitext (re_sub_word filename)).1.take 95 ++
              (splitext (re_sub_word filename)).2)
           then (splitext (re_sub_word filename)).1.take 95 ++
              (splitext (re_sub_word filename)).2
           else (splitext (re_sub_word filename)).1.take 95 ++
              (splitext (re_sub_word filename)).2 ++ (".txt".data)) := by
      rw [sanitize_filename]
      simp only [if_pos hlen]
    have hmem2 : ∀ c ∈ ((splitext (re_sub_word filename)).1.take 95 ++
        (splitext (re_sub_word filename)).2), sanitizeAllowed c = true := by
      intro c hc
      rcases List.mem_append.mp hc with hc | hc
      · exact re_sub_word_allowed filename c
          (splitext_fst_subset _ c (List.take_subset 95 _ hc))
      · exact re_sub_word_allowed filename c (splitext_snd_subset _ c hc)
    have hlen2 : ((splitext (re_sub_word filename)).1.take 95 ++
        (splitext (re_sub_word filename)).2).length
          ≤ 95 + (splitext (re_sub_word filename)).2.length := by
      rw [List.length_append]
      have := List.length_take_le 95 (splitext (re_sub_word filename)).1
      omega
    refine ⟨?_, ?_, fun hle => absurd hle (by omega), fun _ => ⟨heq, ?_⟩⟩
    · intro c hc
      rw [heq] at hc
      split at hc
      · exact hmem2 c hc
      · rcases List.mem_append.mp hc with hc | hc
        · exact hmem2 c hc
        · exact htxt c hc
    · rw [heq]
      split
      · assumption
      · exact List.mem_append.mpr (Or.inr hdot_txt)
    · rw [heq]
      split
      · omega
      · rw [List.length_append]
        have : ((".txt".data : List Char)).length = 4 := by decide
        omega
  · have heq : sanitize_filename filename
        = (if Char.ofNat 46 ∈ re_sub_word filename then re_sub_word filename
           else re_sub_word filename ++ (".txt".data)) := by
      rw [sanitize_filename]
      simp only [if_neg hlen]
    refine ⟨?_, ?_, fun _ => ⟨heq, ?_⟩, fun hgt => absurd hgt (by omega)⟩
    · intro c hc
      rw [heq] at hc
      split at hc
      · exact re_sub_word_allowed filename c hc
      · rcases List.mem_append.mp hc with hc | hc
        · exact re_sub_word_allowed filename c hc
        · exact htxt c hc
    · rw [heq]
      split
      · assumption
      · exact List.mem_append.mpr (Or.inr hdot_txt)
    · rw [heq]
      split
      · omega
      · rw [List.length_append]
        have : ((".txt".data : List Char)).length = 4 := by decide
        omega

/-- Counterexample to C9 as stated: one hundred word characters sanitize to a
104-character name (the appended `.txt` pushes it past the claimed bound of
100). -/
theorem c9_counterexample :
    (sanitize_filename (List.replicate 100 (Char.ofNat 97))).length = 104
    ∧ ¬(sanitize_filename (List.replicate 100 (Char.ofNat 97))).length ≤ 100 := by
  decide

/-- Witness for C9 at the name `my file`: the space becomes an underscore and
`.txt` is appended. -/
theorem c9_witness :
    Char.ofNat 46 ∈ sanitize_filename ("my file".data)
    ∧ sanitize_filename ("my file".data)
        = (if Char.ofNat 46 ∈ re_sub_word ("my file".data)
           then re_sub_word ("my file".data)
           else re_sub_word ("my file".data) ++ (".txt".data)) :=
  ⟨(c9_sanitize_filename ("my file".data)).2.1,
    ((c9_sanitize_filename ("my file".data)).2.2.1 (by decide)).1⟩

/-! C10: the validate endpoint (`main.py`) -/

/-- Validation error entry (code, message, field, severity), as appended by
`validate_data` in `main.py`. -/
structure ValError where
  code : List Char
  message : List Char
  field : List Char
  severity : List Char
deriving DecidableEq, Repr

/-- Claim-relevant part of the validation result: overall validity and the
error, warning and notice lists.  The job id, processing time, timestamps and
derived summary statistics of the endpoint are process-state and clock bound
and carry no claim content. -/
structure ValidationOutcome where
  is_valid : Bool
  errors : List ValError
  warnings : List ValError
  notices : List ValError
deriving DecidableEq, Repr

/-- Error message `Required field 'agencies' is missing`. -/
def msg_agencies_field : List Char :=
  ("Required field ".data) ++ apos :: ("agencies".data) ++ apos ::
    (" is missing".data)

/-- Function `validate_data` of `main.py` (claim-relevant projection): the only
error path requires format `json-transport` and a missing `agencies` key; the
warning and notice lists always stay empty and `is_valid` is the emptiness of
the error list.  The input document is modelled by its set of top-level
keys. -/
def validate_data (format : List Char) (input_keys : List (List Char)) :
    ValidationOutcome :=
  let errors :=
    if format = ("json-transport".data) ∧ ("agencies".data) ∉ input_keys then
      [ValError.mk ("MISSING_REQUIRED_FIELD".data) msg_agencies_field
        ("agencies".data) ("error".data)]
    else []
  ⟨errors.length == 0, errors, [], []⟩

/-- C10: for any format other than `json-transport` the validation outcome is
valid with empty error, warning and notice lists regardless of the input; an
error (and hence invalidity) arises exactly when the format is
`json-transport` and the `agencies` key is absent. -/
theorem c10_validate (format : List Char) (input_keys : List (List Char)) :
    (format ≠ ("json-transport".data) →
      validate_data format input_keys = ⟨true, [], [], []⟩)
    ∧ ((validate_data format input_keys).errors ≠ []
        ↔ format = ("json-transport".data) ∧ ("agencies".data) ∉ input_keys)
    ∧ ((validate_data format input_keys).is_valid = false
        ↔ format = ("json-transport".data) ∧ ("agencies".data) ∉ input_keys)
    ∧ (validate_data format input_keys).warnings = []
    ∧ (validate_data format input_keys).notices = [] := by
  by_cases hc : format = ("json-transport".data) ∧ ("agencies".data) ∉ input_keys
  · have hv : validate_data format input_keys
        = ⟨false,
            [ValError.mk ("MISSING_REQUIRED_FIELD".data) msg_agencies_field
              ("agencies".data) ("error".data)], [], []⟩ := by
      rw [validate_data]
      simp only [if_pos hc]
      rfl
    rw [hv]
    exact ⟨fun hne => absurd hc.1 hne, by simp [hc], by simp [hc], rfl, rfl⟩
  · have hv : validate_data format input_keys = ⟨true, [], [], []⟩ := by
      rw [validate_data]
      simp only [if_neg hc]
      rfl
    rw [hv]
    exact ⟨fun _ => rfl, by simp [hc], by simp [hc], rfl, rfl⟩

/-- Witness for C10: the format `gtfs` validates any key set, and format
`json-transport` with no keys is invalid. -/
theorem c10_witness :
    validate_data ("gtfs".data) [] = ⟨true, [], [], []⟩
    ∧ (validate_data ("json-transport".data) []).is_valid = false :=
  ⟨(c10_validate ("gtfs".data) []).1 (by decide),
    (c10_validate ("json-transport".data) []).2.2.1.mpr ⟨rfl, by decide⟩⟩

end Tsi
